import Mathlib

/-!
Shallow embedding of the llm-latency-benchmark core in Lean 4.

Go `time.Duration` is an `int64` nanosecond count, modelled as `Int`.
Go `time.Time` values are modelled as `Int` instants; the zero value of
`time.Time` (for which `IsZero()` holds) is modelled as `none : Option Int`.
Go `float64` arithmetic is modelled as exact rational arithmetic over `ℚ`.
Go `int` is modelled as `Int`; Go integer division truncates toward zero,
modelled with `Int.tdiv`.
-/

/-- Durations are int64 nanosecond counts. -/
abbrev Duration := Int

/-- Go integer division truncates toward zero. -/
def goDiv (a b : Int) : Int := Int.tdiv a b

/-- Duration.Seconds() returns the duration as a (float64, here exact rational)
number of seconds: nanoseconds divided by 1e9. -/
def Duration.seconds (d : Duration) : ℚ := (d : ℚ) / 1000000000

/-- Per-call metrics accumulator (src/unnamed/part_008, `Metrics`).
The `sync.RWMutex` guards concurrent access in Go and has no functional
content; the embedding is the record of the guarded fields.  `error` values
are modelled as strings (`none` = nil). -/
structure Metrics where
  startTime : Int
  firstTokenTime : Option Int
  endTime : Option Int
  inputTokens : Int
  outputTokens : Int
  totalTokens : Int
  ttft : Duration
  totalTime : Duration
  tokensPerSecond : ℚ
  cost : ℚ
  response : String
  err : Option String
  success : Bool
deriving Repr, DecidableEq

/-- NewMetrics creates a metrics instance with only StartTime set; every other
field holds its Go zero value. -/
def NewMetrics (now : Int) : Metrics :=
  { startTime := now, firstTokenTime := none, endTime := none,
    inputTokens := 0, outputTokens := 0, totalTokens := 0,
    ttft := 0, totalTime := 0, tokensPerSecond := 0, cost := 0,
    response := "", err := none, success := false }

/-- RecordFirstToken records the time of the first token, only when
FirstTokenTime still holds the zero time. -/
def Metrics.RecordFirstToken (m : Metrics) (now : Int) : Metrics :=
  if m.firstTokenTime = none then { m with firstTokenTime := some now } else m

/-- AddTokens adds tokens to the count. -/
def Metrics.AddTokens (m : Metrics) (input output : Int) : Metrics :=
  { m with inputTokens := m.inputTokens + input,
           outputTokens := m.outputTokens + output }

/-- AddResponseContent appends content to the response. -/
def Metrics.AddResponseContent (m : Metrics) (content : String) : Metrics :=
  { m with response := m.response ++ content }

/-- Complete marks the benchmark as complete and calculates final metrics,
`now` being the `time.Now()` observed as EndTime. -/
def Metrics.Complete (m : Metrics) (now : Int) : Metrics :=
  let m1 := { m with endTime := some now, success := true }
  let m2 :=
    match m1.firstTokenTime with
    | some ft => { m1 with ttft := ft - m1.startTime }
    | none => m1
  let m3 := { m2 with totalTime := now - m2.startTime,
                      totalTokens := m2.inputTokens + m2.outputTokens }
  if 0 < m3.totalTime ∧ 0 < m3.outputTokens then
    { m3 with tokensPerSecond := (m3.outputTokens : ℚ) / Duration.seconds m3.totalTime }
  else m3

/-- SetError records an error and marks the benchmark as failed. -/
def Metrics.SetError (m : Metrics) (e : String) (now : Int) : Metrics :=
  { m with err := some e, success := false, endTime := some now }

/-- SetCost sets the cost for this benchmark run. -/
def Metrics.SetCost (m : Metrics) (cost : ℚ) : Metrics :=
  { m with cost := cost }

/-- Complete result of a benchmark run (src/unnamed/part_008, `BenchmarkResult`). -/
structure BenchmarkResult where
  provider : String
  model : String
  promptFile : String
  startTime : Int
  firstTokenTime : Option Int
  endTime : Option Int
  ttft : Duration
  totalTime : Duration
  inputTokens : Int
  outputTokens : Int
  totalTokens : Int
  tokensPerSecond : ℚ
  cost : ℚ
  response : String
  err : Option String
  success : Bool
deriving Repr, DecidableEq

/-- ToBenchmarkResult converts metrics to a BenchmarkResult. -/
def Metrics.ToBenchmarkResult (m : Metrics) (provider model promptFile : String) :
    BenchmarkResult :=
  { provider := provider, model := model, promptFile := promptFile,
    startTime := m.startTime, firstTokenTime := m.firstTokenTime,
    endTime := m.endTime, ttft := m.ttft, totalTime := m.totalTime,
    inputTokens := m.inputTokens, outputTokens := m.outputTokens,
    totalTokens := m.totalTokens, tokensPerSecond := m.tokensPerSecond,
    cost := m.cost, response := m.response, err := m.err, success := m.success }

/-- Aggregated metrics across multiple benchmark runs
(src/unnamed/part_008, `Summary`).  Zero values are the field defaults. -/
structure Summary where
  totalRuns : Int := 0
  successfulRuns : Int := 0
  failedRuns : Int := 0
  avgTTFT : Duration := 0
  avgTotalTime : Duration := 0
  minTTFT : Duration := 0
  maxTTFT : Duration := 0
  p95TTFT : Duration := 0
  p99TTFT : Duration := 0
  avgTokensPerSecond : ℚ := 0
  totalInputTokens : Int := 0
  totalOutputTokens : Int := 0
  totalCost : ℚ := 0
  avgCostPerRun : ℚ := 0
  errorRate : ℚ := 0
deriving Repr, DecidableEq

/-- calculateAverageDuration: sum divided (Go int64 division) by length,
0 on the empty list. -/
def calculateAverageDuration (durations : List Duration) : Duration :=
  if durations.length = 0 then 0
  else goDiv (durations.foldl (· + ·) 0) (durations.length : Int)

/-- calculateMinDuration: first element, then fold of the `<` comparison over
the tail; 0 on the empty list. -/
def calculateMinDuration : List Duration → Duration
  | [] => 0
  | d :: rest => rest.foldl (fun mn x => if x < mn then x else mn) d

/-- calculateMaxDuration: first element, then fold of the `>` comparison over
the tail; 0 on the empty list. -/
def calculateMaxDuration : List Duration → Duration
  | [] => 0
  | d :: rest => rest.foldl (fun mx x => if mx < x then x else mx) d

/-- calculatePercentileDuration as written in the source: the body ignores the
percentile and returns `calculateAverageDuration` (the comment in the source
calls this a placeholder). -/
def calculatePercentileDuration (durations : List Duration) (percentile : Nat) :
    Duration :=
  if durations.length = 0 then 0
  else calculateAverageDuration durations

/-- Specification-side definition, following the spec text only (for
comparison against `calculatePercentileDuration`): the p-th percentile of a
sorted sequence of length n is the value at index `ceil(p/100 * n) - 1`
(nearest-rank), clamped to the last index. -/
def specNearestRankPercentile (sorted : List Duration) (p : Nat) : Duration :=
  match sorted with
  | [] => 0
  | _ =>
    let n := sorted.length
    let idx := min ((p * n + 99) / 100 - 1) (n - 1)
    sorted.getD idx 0

/-- The accumulating for-loop of CalculateSummary: threads the partial
Summary, the collected list of successful TTFTs and the running totalCost
through the result list, left to right, exactly as the Go loop body does. -/
def summaryLoop (s : Summary) (ttfts : List Duration) (tc : ℚ) :
    List BenchmarkResult → Summary × List Duration × ℚ
  | [] => (s, ttfts, tc)
  | r :: rest =>
    let s1 := { s with totalRuns := s.totalRuns + 1 }
    if r.success then
      summaryLoop
        { s1 with successfulRuns := s1.successfulRuns + 1,
                  totalInputTokens := s1.totalInputTokens + r.inputTokens,
                  totalOutputTokens := s1.totalOutputTokens + r.outputTokens }
        (ttfts ++ [r.ttft]) (tc + r.cost) rest
    else
      summaryLoop { s1 with failedRuns := s1.failedRuns + 1 } ttfts tc rest

/-- CalculateSummary calculates summary statistics from a slice of results
(src/unnamed/part_008 lines 194-236). -/
def CalculateSummary (results : List BenchmarkResult) : Summary :=
  if results.length = 0 then {}
  else
    let looped := summaryLoop {} [] 0 results
    let s0 := looped.1
    let ttftDurations := looped.2.1
    let totalCost := looped.2.2
    let s1 := { s0 with errorRate := (s0.failedRuns : ℚ) / (s0.totalRuns : ℚ) }
    let s2 :=
      if 0 < ttftDurations.length then
        { s1 with
            avgTTFT := calculateAverageDuration ttftDurations,
            minTTFT := calculateMinDuration ttftDurations,
            maxTTFT := calculateMaxDuration ttftDurations,
            p95TTFT := calculatePercentileDuration ttftDurations 95,
            p99TTFT := calculatePercentileDuration ttftDurations 99 }
      else s1
    let s3 := { s2 with totalCost := totalCost }
    if 0 < s3.successfulRuns then
      { s3 with avgCostPerRun := totalCost / (s3.successfulRuns : ℚ) }
    else s3

/-- Pricing for one model (src/unnamed/part_006, `ModelPricing`): dollars per
million input and output tokens. -/
structure ModelPricing where
  input : ℚ
  output : ℚ
deriving Repr, DecidableEq

/-- CalculateCost calculates the cost for a given number of input and output
tokens. -/
def ModelPricing.CalculateCost (p : ModelPricing) (inputTokens outputTokens : Int) : ℚ :=
  (inputTokens : ℚ) / 1000000 * p.input + (outputTokens : ℚ) / 1000000 * p.output

/-- Spec for one model (src/unnamed/part_006, `ModelSpec`).  The
`Parameters map[string]interface{}` field carries dynamically typed YAML
values that no claim inspects; it is modelled as an association list of
uninterpreted string pairs. -/
structure ModelSpec where
  tokenPrice : ModelPricing
  parameters : List (String × String)
deriving Repr, DecidableEq

/-- Pricing and parameter configuration for all providers
(src/unnamed/part_006, `ModelsConfig`); each Go map is an association list. -/
structure ModelsConfig where
  openAI : List (String × ModelSpec)
  openAIResponses : List (String × ModelSpec)
  groq : List (String × ModelSpec)
  anthropic : List (String × ModelSpec)
  azureOpenAI : List (String × ModelSpec)
  gemini : List (String × ModelSpec)
deriving Repr, DecidableEq

/-- GetModelPricing returns the pricing for a specific model, or an error for
an unknown provider or an absent model. -/
def ModelsConfig.GetModelPricing (c : ModelsConfig) (provider model : String) :
    Except String ModelPricing :=
  let specs : Except String (List (String × ModelSpec)) :=
    match provider with
    | "openai" => Except.ok c.openAI
    | "openai_responses" => Except.ok c.openAIResponses
    | "groq" => Except.ok c.groq
    | "anthropic" => Except.ok c.anthropic
    | "azure_openai" => Except.ok c.azureOpenAI
    | "gemini" => Except.ok c.gemini
    | _ => Except.error ("unknown provider: " ++ provider)
  match specs with
  | Except.error e => Except.error e
  | Except.ok specs =>
    match specs.lookup model with
    | some spec => Except.ok spec.tokenPrice
    | none => Except.error ("model " ++ model ++ " not found for provider " ++ provider)

/-- The part of the Runner state read by cost calculation:
`r.config.Models` (src/internal/benchmark/runner.go). -/
structure Runner where
  models : ModelsConfig

/-- Runner.calculateCost: look the pricing up; on a lookup error return 0 cost,
otherwise delegate to ModelPricing.CalculateCost. -/
def Runner.calculateCost (r : Runner) (providerName modelName : String)
    (inputTokens outputTokens : Int) : ℚ :=
  match r.models.GetModelPricing providerName modelName with
  | Except.error _ => 0
  | Except.ok pricing => pricing.CalculateCost inputTokens outputTokens

/-- Chat request value object (src/providers/provider.go, `ChatRequest`),
restricted to the fields ValidateRequest reads; the `ExtraParams` map of
dynamically typed values is not inspected by any claim. -/
structure ChatRequest where
  model : String
  systemPrompt : String
  userPrompt : String
  maxTokens : Int
  temperature : ℚ
  topP : ℚ
deriving Repr, DecidableEq

/-- Validation failure value (src/providers/provider.go, `ValidationError`). -/
structure ValidationError where
  field : String
  message : String
deriving Repr, DecidableEq

/-- GroqProvider.ValidateRequest (src/unnamed/part_002 lines 154-191); `none`
models the nil return. -/
def GroqProvider.ValidateRequest (req : ChatRequest) : Option ValidationError :=
  if req.model = "" then
    some { field := "model", message := "model name is required" }
  else if req.userPrompt = "" then
    some { field := "user_prompt", message := "user prompt is required" }
  else if req.maxTokens < 0 then
    some { field := "max_tokens", message := "max_tokens must be non-negative" }
  else if req.temperature < 0 ∨ 2 < req.temperature then
    some { field := "temperature", message := "temperature must be between 0 and 2" }
  else if req.topP < 0 ∨ 1 < req.topP then
    some { field := "top_p", message := "top_p must be between 0 and 1" }
  else none

/-- GroqProvider.GetTokenCount (src/unnamed/part_002 lines 144-151): byte
length divided by 4, raised to 1 when below 1.  `String.utf8ByteSize` is the
Go `len` of a string. -/
def GroqProvider.GetTokenCount (text : String) : Nat :=
  let count := text.utf8ByteSize / 4
  if count < 1 then 1 else count

/-- State of a Go channel as far as close/send discipline goes. -/
inductive ChanState where
  | opened
  | closed
deriving Repr, DecidableEq

/-- Operations whose legality depends on the channel being open. -/
inductive ChanOp where
  | close
  | send
deriving Repr, DecidableEq

/-- Run-time panics the Go memory model raises for channel misuse. -/
inductive GoPanic where
  | closeOfClosedChannel
  | sendOnClosedChannel
deriving Repr, DecidableEq

/-- One channel operation under Go semantics: closing a closed channel and
sending on a closed channel panic. -/
def chanStep : ChanState → ChanOp → Except GoPanic ChanState
  | ChanState.opened, ChanOp.close => Except.ok ChanState.closed
  | ChanState.closed, ChanOp.close => Except.error GoPanic.closeOfClosedChannel
  | ChanState.opened, ChanOp.send => Except.ok ChanState.opened
  | ChanState.closed, ChanOp.send => Except.error GoPanic.sendOnClosedChannel

/-- Execute a sequence of channel operations, stopping at the first panic. -/
def execChanOps (s : ChanState) : List ChanOp → Except GoPanic ChanState
  | [] => Except.ok s
  | op :: rest =>
    match chanStep s op with
    | Except.ok s2 => execChanOps s2 rest
    | Except.error p => Except.error p

/-- The close operations performed on `workChan` in any complete execution of
`runConcurrent` (src/internal/benchmark/runner.go): `defer close(workChan)` at
the top of `runConcurrent` (line 132) and `defer close(workChan)` in the
producer goroutine (line 145).  The producer's deferred close runs when the
producer returns (after sending all items, or on cancellation); the function's
own deferred close runs after `wg.Wait()` returns.  Both therefore execute in
every complete run, in some order; the list records them. -/
def runConcurrentWorkChanOps : List ChanOp := [ChanOp.close, ChanOp.close]

/-- C1 (code bug): on the five sorted latencies 1..5 seconds (in nanoseconds),
the source's calculatePercentileDuration returns the average 3 s for both p95
and p99, not the nearest-rank percentile 5 s that the spec defines: the body
ignores the percentile argument and returns the average (its own comment calls
it a placeholder).  The spec-side nearest-rank definition gives p50 = 3 s,
p95 = 5 s, p99 = 5 s on that input. -/
theorem calculatePercentileDuration_placeholder_diverges :
    calculatePercentileDuration [1000000000, 2000000000, 3000000000, 4000000000, 5000000000] 95 = 3000000000 ∧
    calculatePercentileDuration [1000000000, 2000000000, 3000000000, 4000000000, 5000000000] 99 = 3000000000 ∧
    specNearestRankPercentile [1000000000, 2000000000, 3000000000, 4000000000, 5000000000] 50 = 3000000000 ∧
    specNearestRankPercentile [1000000000, 2000000000, 3000000000, 4000000000, 5000000000] 95 = 5000000000 ∧
    specNearestRankPercentile [1000000000, 2000000000, 3000000000, 4000000000, 5000000000] 99 = 5000000000 ∧
    calculatePercentileDuration [1000000000, 2000000000, 3000000000, 4000000000, 5000000000] 95 ≠
      specNearestRankPercentile [1000000000, 2000000000, 3000000000, 4000000000, 5000000000] 95 := by
  decide

/-- C2 (code bug): `runConcurrent` registers `defer close(workChan)` both at
its own top (runner.go line 132) and in the producer goroutine (line 145);
in every complete execution — cancelled or not — both deferred closes run, so
the work channel is closed twice and the second close panics under Go channel
semantics ("close of closed channel") instead of Run returning cleanly. -/
theorem runConcurrent_workChan_double_close :
    execChanOps ChanState.opened runConcurrentWorkChanOps =
      Except.error GoPanic.closeOfClosedChannel := rfl

/-- C4: CalculateSummary on the empty result list returns the all-zero
Summary: TotalRuns = 0 and every other field, including ErrorRate, is zero
(the early return skips the FailedRuns/TotalRuns division entirely). -/
theorem calculateSummary_empty_all_zero :
    CalculateSummary [] = ({} : Summary) ∧
    (CalculateSummary []).totalRuns = 0 ∧
    (CalculateSummary []).successfulRuns = 0 ∧
    (CalculateSummary []).failedRuns = 0 ∧
    (CalculateSummary []).avgTTFT = 0 ∧
    (CalculateSummary []).avgTotalTime = 0 ∧
    (CalculateSummary []).minTTFT = 0 ∧
    (CalculateSummary []).maxTTFT = 0 ∧
    (CalculateSummary []).p95TTFT = 0 ∧
    (CalculateSummary []).p99TTFT = 0 ∧
    (CalculateSummary []).avgTokensPerSecond = 0 ∧
    (CalculateSummary []).totalInputTokens = 0 ∧
    (CalculateSummary []).totalOutputTokens = 0 ∧
    (CalculateSummary []).totalCost = 0 ∧
    (CalculateSummary []).avgCostPerRun = 0 ∧
    (CalculateSummary []).errorRate = 0 := by
  decide

/-- C5: for every pricing record and non-negative token counts,
CalculateCost(in, out) = (in × Input + out × Output) / 1,000,000 — the
per-million-token linear formula — and at in = 1,000,000, out = 500,000 with
Input = 0.15, Output = 0.6 the cost is exactly 0.45 (float64 arithmetic is
modelled as exact rational arithmetic). -/
theorem modelPricing_calculateCost_formula (p : ModelPricing) (tin tout : Int)
    (htin : 0 ≤ tin) (htout : 0 ≤ tout) :
    p.CalculateCost tin tout = ((tin : ℚ) * p.input + (tout : ℚ) * p.output) / 1000000 ∧
    ModelPricing.CalculateCost ⟨15/100, 6/10⟩ 1000000 500000 = 45/100 := by
  constructor
  · unfold ModelPricing.CalculateCost
    ring
  · norm_num [ModelPricing.CalculateCost]

/-- Witness for C5 at the concrete input of the claim. -/
theorem modelPricing_calculateCost_formula_witness :
    ModelPricing.CalculateCost ⟨15/100, 6/10⟩ 1000000 500000 = 45/100 :=
  (modelPricing_calculateCost_formula ⟨15/100, 6/10⟩ 1000000 500000
    (by decide) (by decide)).2

/-- C6: whenever the pricing lookup for (provider, model) fails, the Runner's
calculateCost returns exactly 0 instead of propagating the lookup error; the
function is total, so the benchmark call goes on to produce a result. -/
theorem runner_calculateCost_missing_pricing_zero (r : Runner)
    (provider model : String) (tin tout : Int)
    (h : ∃ e, r.models.GetModelPricing provider model = Except.error e) :
    r.calculateCost provider model tin tout = 0 := by
  obtain ⟨e, he⟩ := h
  simp [Runner.calculateCost, he]

/-- Witness for C6: the empty pricing table makes every lookup fail, and the
cost comes back 0. -/
theorem runner_calculateCost_missing_pricing_zero_witness :
    (∃ e, (Runner.mk ⟨[], [], [], [], [], []⟩).models.GetModelPricing
        "openai" "mystery-model" = Except.error e) ∧
    (Runner.mk ⟨[], [], [], [], [], []⟩).calculateCost
        "openai" "mystery-model" 100 200 = 0 :=
  ⟨⟨"model mystery-model not found for provider openai", rfl⟩,
   runner_calculateCost_missing_pricing_zero _ _ _ _ _ ⟨_, rfl⟩⟩

/-- C10: for every string, including the empty one, GetTokenCount is exactly
max(len(text) / 4, 1): at least one token is always estimated. -/
theorem groq_getTokenCount_max_floor :
    (∀ text : String,
       GroqProvider.GetTokenCount text = max (text.utf8ByteSize / 4) 1 ∧
       1 ≤ GroqProvider.GetTokenCount text) ∧
    GroqProvider.GetTokenCount "" = 1 := by
  constructor
  · intro text
    simp only [GroqProvider.GetTokenCount]
    constructor <;> split_ifs with h <;> omega
  · rfl

/-- C7: ValidateRequest reports a validation error for every empty user
prompt, empty model, negative MaxTokens, Temperature outside [0, 2] or TopP
outside [0, 1], and returns nil for every request with non-empty model,
non-empty user prompt and zero-valued numeric fields. -/
theorem groq_validateRequest_spec :
    (∀ req : ChatRequest, req.userPrompt = "" →
        (GroqProvider.ValidateRequest req).isSome = true) ∧
    (∀ req : ChatRequest, req.model = "" →
        (GroqProvider.ValidateRequest req).isSome = true) ∧
    (∀ req : ChatRequest, req.maxTokens < 0 →
        (GroqProvider.ValidateRequest req).isSome = true) ∧
    (∀ req : ChatRequest, req.temperature < 0 ∨ 2 < req.temperature →
        (GroqProvider.ValidateRequest req).isSome = true) ∧
    (∀ req : ChatRequest, req.topP < 0 ∨ 1 < req.topP →
        (GroqProvider.ValidateRequest req).isSome = true) ∧
    (∀ req : ChatRequest, req.model ≠ "" → req.userPrompt ≠ "" →
        req.maxTokens = 0 → req.temperature = 0 → req.topP = 0 →
        GroqProvider.ValidateRequest req = none) := by
  refine ⟨?_, ?_, ?_, ?_, ?_, ?_⟩
  · intro req h
    simp only [GroqProvider.ValidateRequest]
    split_ifs with h1 h2 h3 h4 h5 <;> simp
  · intro req h
    simp only [GroqProvider.ValidateRequest]
    split_ifs with h1 h2 h3 h4 h5 <;> simp
  · intro req h
    simp only [GroqProvider.ValidateRequest]
    split_ifs with h1 h2 h3 h4 h5 <;> simp
  · intro req h
    simp only [GroqProvider.ValidateRequest]
    split_ifs with h1 h2 h3 h4 h5 <;> simp
  · intro req h
    simp only [GroqProvider.ValidateRequest]
    split_ifs with h1 h2 h3 h4 h5 <;> simp
  · intro req h1 h2 h3 h4 h5
    norm_num [GroqProvider.ValidateRequest, h1, h2, h3, h4, h5]

/-- Witness for C7: an empty user prompt is rejected and a well-formed default
request passes. -/
theorem groq_validateRequest_spec_witness :
    (GroqProvider.ValidateRequest ⟨"llama-3", "", "", 0, 0, 0⟩).isSome = true ∧
    GroqProvider.ValidateRequest ⟨"llama-3", "", "hello", 0, 0, 0⟩ = none :=
  ⟨groq_validateRequest_spec.1 ⟨"llama-3", "", "", 0, 0, 0⟩ rfl,
   groq_validateRequest_spec.2.2.2.2.2 ⟨"llama-3", "", "hello", 0, 0, 0⟩
     (by decide) (by decide) rfl rfl rfl⟩

/-- C8: RecordFirstToken sets the first-token timestamp at most once: a call
on a record whose FirstTokenTime is already set is the identity, a second call
never changes the result of the first, and any further sequence of calls after
the first is a no-op. -/
theorem recordFirstToken_at_most_once :
    (∀ (m : Metrics) (t : Int), m.firstTokenTime ≠ none →
        m.RecordFirstToken t = m) ∧
    (∀ (m : Metrics) (t₁ t₂ : Int),
        (m.RecordFirstToken t₁).RecordFirstToken t₂ = m.RecordFirstToken t₁) ∧
    (∀ (m : Metrics) (t : Int) (ts : List Int),
        ts.foldl Metrics.RecordFirstToken (m.RecordFirstToken t) =
          m.RecordFirstToken t) := by
  have h1 : ∀ (m : Metrics) (t : Int), m.firstTokenTime ≠ none →
      m.RecordFirstToken t = m := by
    intro m t h
    simp [Metrics.RecordFirstToken, h]
  have h2 : ∀ (m : Metrics) (t : Int),
      (m.RecordFirstToken t).firstTokenTime ≠ none := by
    intro m t
    simp only [Metrics.RecordFirstToken]
    split_ifs with h <;> simp_all
  have h3 : ∀ (ts : List Int) (m : Metrics), m.firstTokenTime ≠ none →
      ts.foldl Metrics.RecordFirstToken m = m := by
    intro ts
    induction ts with
    | nil => intro m h; rfl
    | cons t rest ih =>
      intro m h
      simp only [List.foldl, h1 m t h]
      exact ih m h
  exact ⟨h1, fun m t₁ t₂ => h1 _ t₂ (h2 m t₁), fun m t ts => h3 ts _ (h2 m t)⟩

/-- Witness for C8: a record whose first-token time is already set is left
unchanged by a further RecordFirstToken. -/
theorem recordFirstToken_at_most_once_witness :
    ({ NewMetrics 0 with firstTokenTime := some 5 } : Metrics).RecordFirstToken 7 =
      { NewMetrics 0 with firstTokenTime := some 5 } :=
  recordFirstToken_at_most_once.1 _ 7 (by decide)

/-- C9: for a metrics record finalized by Complete — fresh derived fields,
StartTime no later than the completion instant, and any recorded first-token
instant lying between start and completion — TTFT never exceeds TotalTime;
TokensPerSecond equals OutputTokens divided by TotalTime in seconds exactly
when both are positive and is 0 otherwise; and when no first token was ever
recorded, TTFT stays 0 while Success is still set to true. -/
theorem metrics_complete_spec (m : Metrics) (now : Int)
    (httft : m.ttft = 0) (htps : m.tokensPerSecond = 0)
    (hstart : m.startTime ≤ now)
    (hft : ∀ ft, m.firstTokenTime = some ft → m.startTime ≤ ft ∧ ft ≤ now) :
    (m.Complete now).ttft ≤ (m.Complete now).totalTime ∧
    (m.Complete now).tokensPerSecond =
      (if 0 < (m.Complete now).totalTime ∧ 0 < (m.Complete now).outputTokens then
         ((m.Complete now).outputTokens : ℚ) / Duration.seconds (m.Complete now).totalTime
       else 0) ∧
    (m.firstTokenTime = none →
      (m.Complete now).ttft = 0 ∧ (m.Complete now).success = true) := by
  rcases hm : m.firstTokenTime with _ | ft
  · simp only [Metrics.Complete, hm]
    split_ifs with h <;>
      refine ⟨?_, ?_, fun _ => ⟨?_, ?_⟩⟩ <;> simp_all <;> omega
  · have hb := hft ft hm
    simp only [Metrics.Complete, hm]
    split_ifs with h <;>
      refine ⟨?_, ?_, fun hc => ?_⟩ <;> simp_all <;> omega

/-- Witness for C9 at a concrete record: start 0, first token at 5, two output
tokens, completed at instant 10. -/
theorem metrics_complete_spec_witness :
    (Metrics.Complete ⟨0, some 5, none, 3, 2, 0, 0, 0, 0, 0, "", none, false⟩ 10).ttft ≤
      (Metrics.Complete ⟨0, some 5, none, 3, 2, 0, 0, 0, 0, 0, "", none, false⟩ 10).totalTime :=
  (metrics_complete_spec ⟨0, some 5, none, 3, 2, 0, 0, 0, 0, 0, "", none, false⟩ 10
    rfl rfl (by decide)
    (by intro ft hft; injection hft with h; subst h; exact ⟨by decide, by decide⟩)).1

/-- The loop of CalculateSummary counts every result once in totalRuns. -/
theorem summaryLoop_totalRuns (rs : List BenchmarkResult) :
    ∀ (s : Summary) (ttfts : List Duration) (tc : ℚ),
      (summaryLoop s ttfts tc rs).1.totalRuns = s.totalRuns + rs.length := by
  induction rs with
  | nil => intro s ttfts tc; simp [summaryLoop]
  | cons r rest ih =>
    intro s ttfts tc
    by_cases hr : r.success <;> simp [summaryLoop, hr, ih] <;> omega

/-- The loop counts exactly the successful results in successfulRuns. -/
theorem summaryLoop_successfulRuns (rs : List BenchmarkResult) :
    ∀ (s : Summary) (ttfts : List Duration) (tc : ℚ),
      (summaryLoop s ttfts tc rs).1.successfulRuns =
        s.successfulRuns + ((rs.filter (·.success)).length : Int) := by
  induction rs with
  | nil => intro s ttfts tc; simp [summaryLoop]
  | cons r rest ih =>
    intro s ttfts tc
    by_cases hr : r.success <;>
      simp [summaryLoop, hr, ih, List.filter_cons] <;> omega

/-- The loop counts exactly the failed results in failedRuns. -/
theorem summaryLoop_failedRuns (rs : List BenchmarkResult) :
    ∀ (s : Summary) (ttfts : List Duration) (tc : ℚ),
      (summaryLoop s ttfts tc rs).1.failedRuns =
        s.failedRuns + ((rs.filter (fun r => !r.success)).length : Int) := by
  induction rs with
  | nil => intro s ttfts tc; simp [summaryLoop]
  | cons r rest ih =>
    intro s ttfts tc
    by_cases hr : r.success <;>
      simp [summaryLoop, hr, ih, List.filter_cons] <;> omega

/-- The loop sums input tokens over successful results only. -/
theorem summaryLoop_totalInputTokens (rs : List BenchmarkResult) :
    ∀ (s : Summary) (ttfts : List Duration) (tc : ℚ),
      (summaryLoop s ttfts tc rs).1.totalInputTokens =
        s.totalInputTokens + ((rs.filter (·.success)).map (·.inputTokens)).sum := by
  induction rs with
  | nil => intro s ttfts tc; simp [summaryLoop]
  | cons r rest ih =>
    intro s ttfts tc
    by_cases hr : r.success <;>
      simp [summaryLoop, hr, ih, List.filter_cons] <;> ring

/-- The loop sums output tokens over successful results only. -/
theorem summaryLoop_totalOutputTokens (rs : List BenchmarkResult) :
    ∀ (s : Summary) (ttfts : List Duration) (tc : ℚ),
      (summaryLoop s ttfts tc rs).1.totalOutputTokens =
        s.totalOutputTokens + ((rs.filter (·.success)).map (·.outputTokens)).sum := by
  induction rs with
  | nil => intro s ttfts tc; simp [summaryLoop]
  | cons r rest ih =>
    intro s ttfts tc
    by_cases hr : r.success <;>
      simp [summaryLoop, hr, ih, List.filter_cons] <;> ring

/-- The loop sums cost over successful results only. -/
theorem summaryLoop_totalCost (rs : List BenchmarkResult) :
    ∀ (s : Summary) (ttfts : List Duration) (tc : ℚ),
      (summaryLoop s ttfts tc rs).2.2 =
        tc + ((rs.filter (·.success)).map (·.cost)).sum := by
  induction rs with
  | nil => intro s ttfts tc; simp [summaryLoop]
  | cons r rest ih =>
    intro s ttfts tc
    by_cases hr : r.success <;>
      simp [summaryLoop, hr, ih, List.filter_cons] <;> ring

/-- The loop collects the TTFTs of the successful results, in order. -/
theorem summaryLoop_ttfts (rs : List BenchmarkResult) :
    ∀ (s : Summary) (ttfts : List Duration) (tc : ℚ),
      (summaryLoop s ttfts tc rs).2.1 =
        ttfts ++ (rs.filter (·.success)).map (·.ttft) := by
  induction rs with
  | nil => intro s ttfts tc; simp [summaryLoop]
  | cons r rest ih =>
    intro s ttfts tc
    by_cases hr : r.success <;>
      simp [summaryLoop, hr, ih, List.filter_cons]

/-- The loop never touches avgCostPerRun. -/
theorem summaryLoop_avgCostPerRun (rs : List BenchmarkResult) :
    ∀ (s : Summary) (ttfts : List Duration) (tc : ℚ),
      (summaryLoop s ttfts tc rs).1.avgCostPerRun = s.avgCostPerRun := by
  induction rs with
  | nil => intro s ttfts tc; simp [summaryLoop]
  | cons r rest ih =>
    intro s ttfts tc
    by_cases hr : r.success <;> simp [summaryLoop, hr, ih]

/-- Every result is either successful or failed. -/
theorem filter_success_length_partition (rs : List BenchmarkResult) :
    (rs.filter (·.success)).length + (rs.filter (fun r => !r.success)).length =
      rs.length := by
  induction rs with
  | nil => simp
  | cons r rest ih =>
    by_cases hr : r.success <;> simp [List.filter_cons, hr] <;> omega

/-- C3: the Summary of any finite result list satisfies
TotalRuns = SuccessfulRuns + FailedRuns, and TotalCost, TotalInputTokens,
TotalOutputTokens and AvgCostPerRun are computed from the successful results
alone (failed results contribute nothing to cost or token aggregates). -/
theorem calculateSummary_success_only (results : List BenchmarkResult) :
    (CalculateSummary results).totalRuns =
      (CalculateSummary results).successfulRuns +
        (CalculateSummary results).failedRuns ∧
    (CalculateSummary results).successfulRuns =
      ((results.filter (·.success)).length : Int) ∧
    (CalculateSummary results).totalCost =
      ((results.filter (·.success)).map (·.cost)).sum ∧
    (CalculateSummary results).totalInputTokens =
      ((results.filter (·.success)).map (·.inputTokens)).sum ∧
    (CalculateSummary results).totalOutputTokens =
      ((results.filter (·.success)).map (·.outputTokens)).sum ∧
    (CalculateSummary results).avgCostPerRun =
      (if (results.filter (·.success)).length = 0 then 0
       else ((results.filter (·.success)).map (·.cost)).sum /
         ((results.filter (·.success)).length : ℚ)) := by
  by_cases hempty : results.length = 0
  · have hnil : results = [] := List.length_eq_zero.mp hempty
    subst hnil
    exact ⟨rfl, rfl, rfl, rfl, rfl, rfl⟩
  · have htr := summaryLoop_totalRuns results {} [] 0
    have hsr := summaryLoop_successfulRuns results {} [] 0
    have hfr := summaryLoop_failedRuns results {} [] 0
    have hin := summaryLoop_totalInputTokens results {} [] 0
    have hout := summaryLoop_totalOutputTokens results {} [] 0
    have hcost := summaryLoop_totalCost results {} [] 0
    have havg := summaryLoop_avgCostPerRun results {} [] 0
    have hpart := filter_success_length_partition results
    simp only [CalculateSummary, if_neg hempty]
    simp only [apply_ite Summary.totalRuns, apply_ite Summary.successfulRuns,
      apply_ite Summary.failedRuns, apply_ite Summary.totalCost,
      apply_ite Summary.totalInputTokens, apply_ite Summary.totalOutputTokens,
      apply_ite Summary.avgCostPerRun]
    simp only [ite_self]
    simp only [htr, hsr, hfr, hin, hout, hcost, havg]
    refine ⟨by omega, by omega, by simp, by simp, by simp, ?_⟩
    by_cases hs : (results.filter (·.success)).length = 0
    · simp [hs, hsr, havg, hcost]
    · have hlt : (0 : Int) < ((results.filter (·.success)).length : Int) := by omega
      simp [hs, hsr, havg, hcost, hlt]
